import Mathlib

/-!
Shallow embedding of `src/app.py` (QrCode-Generator): the configuration
validator (`QRCodeGenerator.__init__`), the two render operations
(`make_png`, `make_svg`) and the output resolver (`QRCodeGenerator.save`),
together with the Python path helpers (`os.path.splitext`, `os.path.dirname`)
they use.  Python exceptions become `Except` errors carrying the exact
message strings raised by the source; the optional-dependency globals
`_PIL_AVAILABLE` / `_SVG_AVAILABLE` become explicit boolean parameters;
the filesystem side effects of `save` become explicit state passing over a
small filesystem record.
-/

namespace QrApp

/-- Index of the last occurrence of `c` in `s`, or `-1` when absent
(Python `str.rfind` for a single character). -/
def rfindChar (c : Char) (s : List Char) : Int :=
  (s.enum.foldl (fun acc p => if p.2 = c then (p.1 : Int) else acc) (-1))

/-- The extension part of Python `os.path.splitext(p)` (posix flavour):
the suffix from the last dot of the final component, provided that dot is
not part of a run of leading dots of that component. -/
def splitextExt (p : String) : String :=
  let s := p.toList
  let sepIndex := rfindChar '/' s
  let dotIndex := rfindChar '.' s
  if dotIndex > sepIndex then
    let filenameIndex := (sepIndex + 1).toNat
    if ((s.drop filenameIndex).take (dotIndex.toNat - filenameIndex)).any (· ≠ '.') then
      String.mk (s.drop dotIndex.toNat)
    else ""
  else ""

/-- Python `os.path.dirname(p)` (posix flavour): everything before the last
separator, with trailing separators stripped unless the head is all
separators. -/
def dirname (p : String) : String :=
  let s := p.toList
  let i := (rfindChar '/' s + 1).toNat
  let head := s.take i
  if head ≠ [] ∧ ¬ head.all (· = '/') then
    String.mk ((head.reverse.dropWhile (· = '/')).reverse)
  else
    String.mk head

/-- Python `str.lower()` as applied to the extension (line 87): ASCII
lower-casing of each character. -/
def strLower (s : String) : String := String.mk (s.toList.map Char.toLower)

/-- The expression `os.path.dirname(out_path) or "."` — the Python
falsy-empty-string idiom at line 88 of the source. -/
def dirOrDot (d : String) : String := if d = "" then "." else d

/-- The directories `os.makedirs(d, exist_ok=True)` guarantees to exist
afterwards: every `/`-separated prefix of `d`. -/
def pathPrefixes (d : String) : List String :=
  let parts := d.splitOn "/"
  (List.range parts.length).map (fun k => String.intercalate "/" (parts.take (k + 1)))

/-- The validated configuration: the three fields `__init__` stores on
`self`. -/
structure QRCodeGenerator where
  error_level : String
  box_size : Int
  border : Int
deriving DecidableEq, Repr

/-- The keys of `_ERR_MAP`: the admissible error-correction levels. -/
def errLevels : List String := ["L", "M", "Q", "H"]

/-- Message of the `ValueError` raised for a bad `error_level` (line 42). -/
def errLevelMsg : String := "error_level must be one of: L, M, Q, H"

/-- Message of the single `ValueError` raised for a bad `box_size` or a bad
`border` (line 44). -/
def sizeMsg : String := "box_size >= 1 and border >= 0 required"

/-- Embedding of `QRCodeGenerator.__init__` (lines 40–47): validates the parameters and
stores them unchanged; a raised `ValueError` becomes `Except.error` with the
exact message. -/
def mkQRCodeGenerator (error_level : String) (box_size border : Int) :
    Except String QRCodeGenerator :=
  if ¬ (errLevels.contains error_level) then
    .error errLevelMsg
  else if box_size < 1 ∨ border < 0 then
    .error sizeMsg
  else
    .ok ⟨error_level, box_size, border⟩

/-- The three SVG factory choices of `make_svg` (`SvgMethod` literal,
line 27). -/
inductive SvgMethod where
  | basic
  | fragment
  | path
deriving DecidableEq, Repr

/-- Modelled from the spec: the external Symbol Encoder (§6) producing a
deterministic module matrix for a payload at an error-correction level;
the QR encoding algorithm itself lives in the external `qrcode` library and
is not part of this repository, so any fixed deterministic total function
is a faithful stand-in for the claims below. -/
def encodeMatrix (data : String) (errorLevel : String) : List (List Bool) :=
  let n := 21
  let h := data.toList.foldl (fun a c => (a * 131 + c.toNat) % 4099)
    ((errLevels.indexOf errorLevel) % 4099)
  (List.range n).map (fun i => (List.range n).map (fun j => (h + 3 * i + 7 * j) % 3 = 0))

/-- Modelled from the spec: the raster rendering of the module matrix —
`box` pixels per module, `border` modules of quiet zone, dark-on-light
(`make_image(fill_color="black", back_color="white")`, line 61). -/
def rasterImage (data errorLevel : String) (box border : Nat) : List (List Bool) :=
  let m := encodeMatrix data errorLevel
  let n := m.length
  let blank := List.replicate (n + 2 * border) false
  let padded := List.replicate border blank
    ++ m.map (fun r => List.replicate border false ++ r ++ List.replicate border false)
    ++ List.replicate border blank
  padded.flatMap (fun r => List.replicate box (r.flatMap (fun b => List.replicate box b)))

/-- Modelled from the spec: the serialized vector markup produced by the
chosen SVG factory (`qsvg.SvgImage` / `SvgFragmentImage` / `SvgPathImage`,
lines 68–73). -/
def svgMarkup (data errorLevel : String) (box border : Int) (method : SvgMethod) : String :=
  let tag := match method with
    | .basic => "svg-basic"
    | .fragment => "svg-fragment"
    | .path => "svg-path"
  tag ++ ":" ++ errorLevel ++ ":" ++ toString box ++ ":" ++ toString border ++ ":" ++ data

/-- The in-memory image object a render operation returns: a Pillow image
(pixel grid) from `make_png` or a qrcode SVG object (markup) from
`make_svg`. -/
inductive Artifact where
  | raster (grid : List (List Bool))
  | vector (markup : String)
deriving DecidableEq, Repr

/-- Message of the `RuntimeError` raised by `make_png` when Pillow is
absent (line 52). -/
def pilMissingMsg : String := "Pillow is not installed. Install with: pip install pillow"

/-- Message of the `RuntimeError` raised by `make_svg` when the SVG
factories are absent (line 67). -/
def svgMissingMsg : String :=
  "qrcode[svg] not installed. Install with: pip install \x27qrcode[svg]\x27"

/-- The errors a render operation can raise: only the backend-unavailable
`RuntimeError`s, carrying their message. -/
inductive RenderErr where
  | backendUnavailable (msg : String)
deriving DecidableEq, Repr

/-- Embedding of `QRCodeGenerator.make_png` (lines 49–62) with the global
`_PIL_AVAILABLE` passed explicitly: guard the raster backend, then build
the QR and its raster image.  There is no check on `data`. -/
def make_png (pilAvailable : Bool) (g : QRCodeGenerator) (data : String) :
    Except RenderErr Artifact :=
  if ¬ pilAvailable then
    .error (.backendUnavailable pilMissingMsg)
  else
    .ok (.raster (rasterImage data g.error_level g.box_size.toNat g.border.toNat))

/-- Embedding of `QRCodeGenerator.make_svg` (lines 64–83) with the global
`_SVG_AVAILABLE` passed explicitly: guard the vector backend, pick the
factory from `method`, then build the QR and its SVG image.  There is no
check on `data`. -/
def make_svg (svgAvailable : Bool) (g : QRCodeGenerator) (data : String)
    (method : SvgMethod) : Except RenderErr Artifact :=
  if ¬ svgAvailable then
    .error (.backendUnavailable svgMissingMsg)
  else
    .ok (.vector (svgMarkup data g.error_level g.box_size g.border method))

/-- The filesystem state `save` acts on: existing directories and written
files (path paired with the object whose bytes were written there). -/
structure FS where
  dirs : List String
  files : List (String × Artifact)
deriving DecidableEq, Repr

/-- Effect of `os.makedirs(d, exist_ok=True)` on the success path: every prefix
directory of `d` exists afterwards. -/
def mkdirsFS (fs : FS) (d : String) : FS :=
  { fs with dirs := pathPrefixes d ++ fs.dirs }

/-- The errors `save` can raise: the propagated `OSError` of a failed
`os.makedirs`, and the `ValueError` of line 101. -/
inductive SaveErr where
  | ioFailure
  | valueError (msg : String)
deriving DecidableEq, Repr

/-- Message of the `ValueError` raised by `save` when no branch applies
(line 101). -/
def saveMsg : String :=
  "Output path must end with .png or .svg (and ensure required deps are installed)."

/-- Embedding of `QRCodeGenerator.save` (lines 85–101) with `_PIL_AVAILABLE` and the
outcome of `os.makedirs` passed explicitly and the filesystem threaded as
state: lower-cased extension, directory creation, then the PNG branch
(guarded by extension **and** Pillow availability), the SVG branch, or the
final `ValueError`. -/
def save (pilAvailable mkdirFail : Bool) (fs : FS) (obj : Artifact)
    (out_path : String) : FS × Except SaveErr String :=
  let ext := strLower (splitextExt out_path)
  if mkdirFail then
    (fs, .error .ioFailure)
  else
    let fs1 := mkdirsFS fs (dirOrDot (dirname out_path))
    if (ext = ".png" ∨ ext = "") ∧ pilAvailable then
      let final := if ext ≠ "" then out_path else out_path ++ ".png"
      ({ fs1 with files := (final, obj) :: fs1.files }, .ok final)
    else if ext = ".svg" then
      ({ fs1 with files := (out_path, obj) :: fs1.files }, .ok out_path)
    else
      (fs1, .error (.valueError saveMsg))

/-- The method `make_png` as an explicit state transformer on the generator object:
the method body assigns no attribute of `self`, so the post-state is the
receiver unchanged. -/
def make_pngS (pilAvailable : Bool) (g : QRCodeGenerator) (data : String) :
    QRCodeGenerator × Except RenderErr Artifact :=
  (g, make_png pilAvailable g data)

/-- The method `make_svg` as an explicit state transformer on the generator object:
no attribute of `self` is assigned. -/
def make_svgS (svgAvailable : Bool) (g : QRCodeGenerator) (data : String)
    (method : SvgMethod) : QRCodeGenerator × Except RenderErr Artifact :=
  (g, make_svg svgAvailable g data method)

/-- The method `save` as an explicit state transformer on the generator object: the
method body never reads or assigns an attribute of `self`. -/
def saveS (pilAvailable mkdirFail : Bool) (g : QRCodeGenerator) (fs : FS)
    (obj : Artifact) (out_path : String) :
    QRCodeGenerator × (FS × Except SaveErr String) :=
  (g, save pilAvailable mkdirFail fs obj out_path)

/-- Helper: every element of a list is contained in the list extended on
the right. -/
theorem all_contains_append (l m : List String) :
    l.all (fun d => (l ++ m).contains d) = true := by
  simp [List.all_eq_true]
  intro d hd
  exact Or.inl hd

/-- C1 counterexample: the claim that both render operations reject the
empty payload with `EmptyPayload` is false — with the backends available,
`make_png` and `make_svg` on `""` both return an artifact, and no
empty-payload check exists anywhere in either method. -/
theorem empty_payload_renders_cex :
    make_png true ⟨"M", 10, 4⟩ "" = .ok (.raster (rasterImage "" "M" 10 4))
    ∧ make_svg true ⟨"M", 10, 4⟩ "" .path = .ok (.vector (svgMarkup "" "M" 10 4 .path)) :=
  ⟨rfl, rfl⟩

/-- C1 (amended): neither `make_png` nor `make_svg` guards against the
empty payload — for every configuration and SVG method, rendering `""`
with the backend available succeeds with an artifact rather than failing;
only the GUI adapter rejects empty input before reaching the core. -/
theorem empty_payload_not_rejected (g : QRCodeGenerator) (m : SvgMethod) :
    (make_png true g "").isOk = true ∧ (make_svg true g "" m).isOk = true := by
  constructor <;> rfl

/-- C2 counterexample: the claim that `save` replaces a non-png extension
is false — saving a raster artifact to `"out.jpg"` does not resolve to
`"out.png"`, it raises the generic `ValueError` of line 101. -/
theorem save_jpg_rejected_cex :
    (save true false ⟨[], []⟩ (.raster [[true]]) "out.jpg").2
      = .error (.valueError saveMsg) := rfl

/-- C2 (amended): `save` reconciles only a *missing* extension — when the
requested path has no extension and Pillow is available, it appends
`".png"` and returns the extended path (so `save(raster, "out")` resolves
to `"out.png"`); an extension other than `.png`/`.svg` is never replaced
but rejected. -/
theorem save_appends_png_when_no_ext (fs : FS) (obj : Artifact) (p : String)
    (h : splitextExt p = "") :
    (save true false fs obj p).2 = .ok (p ++ ".png") := by
  have h2 : strLower (splitextExt p) = "" := by rw [h]; rfl
  simp [save, h2]

/-- C2 witness: `save(rasterArtifact, "out")` resolves to `"out.png"`. -/
theorem save_appends_png_when_no_ext_witness :
    (save true false ⟨[], []⟩ (.raster [[true]]) "out").2 = .ok ("out" ++ ".png") :=
  save_appends_png_when_no_ext ⟨[], []⟩ (.raster [[true]]) "out" (by decide)

/-- C3 counterexample: the claim that saving a vector artifact to an
extensionless path fails with `MissingExtension` is false — with Pillow
available the extension-empty branch of `save` fires regardless of the
artifact kind, so the vector artifact is silently written to `"out.png"`
and the call succeeds. -/
theorem vector_artifact_saved_as_png_cex :
    (save true false ⟨[], []⟩ (.vector "markup") "out").2 = .ok "out.png" := rfl

/-- C3 (amended): for an extensionless path with a vector artifact, `save`
either silently succeeds writing to `path ++ ".png"` (when Pillow is
available) or fails with the generic `ValueError` of line 101 (when it is
not); no `MissingExtension` error exists in the code. -/
theorem vector_no_extension_behaviour (fs : FS) (markup : String) (p : String)
    (h : splitextExt p = "") :
    (save true false fs (.vector markup) p).2 = .ok (p ++ ".png")
    ∧ (save false false fs (.vector markup) p).2 = .error (.valueError saveMsg) := by
  have h2 : strLower (splitextExt p) = "" := by rw [h]; rfl
  constructor <;> simp [save, h2]

/-- C3 witness: `save(vectorArtifact, "out")` at a concrete input — it
resolves to `"out.png"` with Pillow present and raises the generic
`ValueError` without it. -/
theorem vector_no_extension_behaviour_witness :
    (save true false ⟨[], []⟩ (.vector "m") "out").2 = .ok ("out" ++ ".png")
    ∧ (save false false ⟨[], []⟩ (.vector "m") "out").2 = .error (.valueError saveMsg) :=
  vector_no_extension_behaviour ⟨[], []⟩ "m" "out" (by decide)

/-- C4 counterexample: the claim that `moduleSize < 1` and `quietZone < 0`
yield two distinguishable errors is false — a bad `box_size` and a bad
`border` raise the very same `ValueError`, the shared message of line 44. -/
theorem size_border_shared_error_cex :
    mkQRCodeGenerator "M" 0 4 = .error sizeMsg
    ∧ mkQRCodeGenerator "M" 10 (-1) = .error sizeMsg
    ∧ mkQRCodeGenerator "M" 0 4 = mkQRCodeGenerator "M" 10 (-1) :=
  ⟨rfl, rfl, rfl⟩

/-- C4 (amended): for a valid error level, any `box_size < 1` or
`border < 0` is rejected, but always with the single combined error
message `"box_size >= 1 and border >= 0 required"`, not with two
distinguishable specific errors. -/
theorem invalid_size_or_border_single_error (lvl : String) (box border : Int)
    (h1 : lvl ∈ errLevels) (h2 : box < 1 ∨ border < 0) :
    mkQRCodeGenerator lvl box border = .error sizeMsg := by
  simp [mkQRCodeGenerator, h1, h2]

/-- C4 witness: a concrete invalid size and border are rejected with the
shared message. -/
theorem invalid_size_or_border_single_error_witness :
    mkQRCodeGenerator "H" 0 (-5) = .error sizeMsg :=
  invalid_size_or_border_single_error "H" 0 (-5) (by decide) (by decide)

/-- C5: for every error level in `{L, M, Q, H}`, `box_size ≥ 1` and
`border ≥ 0`, construction succeeds and echoes exactly those three values;
for every error level outside the set it fails with the specific
`error_level` message. -/
theorem validate_echo_and_level_check (lvl : String) (box border : Int) :
    (lvl ∈ errLevels → 1 ≤ box → 0 ≤ border →
      mkQRCodeGenerator lvl box border = .ok ⟨lvl, box, border⟩)
    ∧ (lvl ∉ errLevels →
      mkQRCodeGenerator lvl box border = .error errLevelMsg) := by
  constructor
  · intro h1 h2 h3
    have hno : ¬ (box < 1 ∨ border < 0) := by omega
    simp [mkQRCodeGenerator, h1, hno]
  · intro h
    simp [mkQRCodeGenerator, h]

/-- C5 witness: a valid configuration is echoed, an invalid level is
rejected. -/
theorem validate_echo_and_level_check_witness :
    mkQRCodeGenerator "Q" 3 0 = .ok ⟨"Q", 3, 0⟩
    ∧ mkQRCodeGenerator "Z" 3 0 = .error errLevelMsg :=
  ⟨(validate_echo_and_level_check "Q" 3 0).1 (by decide) (by decide) (by decide),
   (validate_echo_and_level_check "Z" 3 0).2 (by decide)⟩

/-- C6: for every payload, configuration and SVG method, a render
operation whose backend capability is absent fails with the
backend-unavailable `RuntimeError` naming the missing capability (Pillow
for raster, the SVG factories for all three vector strategies) and
produces no artifact; the two messages are distinct so the failing
strategy family is identified. -/
theorem backend_unavailable_render_error (g : QRCodeGenerator) (data : String)
    (m : SvgMethod) :
    make_png false g data = .error (.backendUnavailable pilMissingMsg)
    ∧ make_svg false g data m = .error (.backendUnavailable svgMissingMsg)
    ∧ pilMissingMsg ≠ svgMissingMsg :=
  ⟨rfl, rfl, by decide⟩

/-- C7: for every `.png` path, `save` creates the parent directory chain
before writing — on success the resolved path is returned, every prefix of
the parent directory exists in the resulting filesystem, and the file is
written; a failing `os.makedirs` propagates as the I/O error with or
without Pillow. -/
theorem save_creates_parent_dirs (fs : FS) (a : Artifact) (p : String)
    (h : strLower (splitextExt p) = ".png") :
    (save true false fs a p).2 = .ok p
    ∧ ((pathPrefixes (dirOrDot (dirname p))).all
        (fun d => (save true false fs a p).1.dirs.contains d)) = true
    ∧ ((save true false fs a p).1.files.contains (p, a)) = true
    ∧ (save true true fs a p).2 = .error .ioFailure
    ∧ (save false true fs a p).2 = .error .ioFailure := by
  have hsv : save true false fs a p =
      (⟨pathPrefixes (dirOrDot (dirname p)) ++ fs.dirs, (p, a) :: fs.files⟩, .ok p) := by
    simp [save, mkdirsFS, h]
  refine ⟨by rw [hsv], ?_, ?_, rfl, rfl⟩
  · rw [hsv]
    exact all_contains_append _ _
  · rw [hsv]
    simp

/-- C7 witness: saving to `"nested/dir/out.png"` on an empty filesystem
succeeds and creates both `"nested"` and `"nested/dir"`. -/
theorem save_creates_parent_dirs_witness :
    (save true false ⟨[], []⟩ (.raster [[true]]) "nested/dir/out.png").2
      = .ok "nested/dir/out.png"
    ∧ ((pathPrefixes (dirOrDot (dirname "nested/dir/out.png"))).all
        (fun d => (save true false ⟨[], []⟩ (.raster [[true]])
          "nested/dir/out.png").1.dirs.contains d)) = true
    ∧ ((save true false ⟨[], []⟩ (.raster [[true]]) "nested/dir/out.png").1.files.contains
        ("nested/dir/out.png", .raster [[true]])) = true
    ∧ (save true true ⟨[], []⟩ (.raster [[true]]) "nested/dir/out.png").2 = .error .ioFailure
    ∧ (save false true ⟨[], []⟩ (.raster [[true]]) "nested/dir/out.png").2 = .error .ioFailure :=
  save_creates_parent_dirs ⟨[], []⟩ (.raster [[true]]) "nested/dir/out.png" (by decide)

/-- C8: `make_png` is a deterministic function of payload and validated
configuration — two runs agree, and the produced pixel grid is exactly the
raster image determined by the payload and the three configuration
fields. -/
theorem make_png_deterministic (lvl : String) (box border : Int)
    (g : QRCodeGenerator) (data : String)
    (h : mkQRCodeGenerator lvl box border = .ok g) :
    make_png true g data = make_png true g data
    ∧ make_png true g data
      = .ok (.raster (rasterImage data g.error_level g.box_size.toNat g.border.toNat)) :=
  ⟨rfl, rfl⟩

/-- C8 witness: determinism at a concrete payload and the default
configuration. -/
theorem make_png_deterministic_witness :
    make_png true ⟨"M", 10, 4⟩ "ab" = make_png true ⟨"M", 10, 4⟩ "ab"
    ∧ make_png true ⟨"M", 10, 4⟩ "ab"
      = .ok (.raster (rasterImage "ab" "M" (Int.toNat 10) (Int.toNat 4))) :=
  make_png_deterministic "M" 10 4 ⟨"M", 10, 4⟩ "ab" rfl

/-- C9: every operation preserves the configuration — viewed as state
transformers on the generator object, `make_png`, `make_svg` and `save`
all return the receiver unchanged (no method body assigns any attribute of
`self`), so `error_level`, `box_size` and `border` are identical before
and after each call. -/
theorem generator_config_immutable (pil svgA mkF : Bool) (g : QRCodeGenerator)
    (data : String) (m : SvgMethod) (fs : FS) (a : Artifact) (p : String) :
    (make_pngS pil g data).1 = g
    ∧ (make_svgS svgA g data m).1 = g
    ∧ (saveS pil mkF g fs a p).1 = g :=
  ⟨rfl, rfl, rfl⟩

/-- C10: when Pillow is unavailable, `save` on every `.png` path
(case-insensitively) and every extensionless path falls through to the
generic `ValueError` of line 101 and writes no file — the PNG branch is
guarded by `_PIL_AVAILABLE`, not by the extension alone. -/
theorem save_png_requires_pillow (fs : FS) (a : Artifact) (p : String)
    (h : strLower (splitextExt p) = ".png" ∨ strLower (splitextExt p) = "") :
    (save false false fs a p).2 = .error (.valueError saveMsg)
    ∧ (save false false fs a p).1.files = fs.files := by
  rcases h with h | h <;> constructor <;> simp [save, mkdirsFS, h]

/-- C10 witness: with Pillow absent, the upper-case path `"OUT.PNG"` is
rejected with the generic error and no file is written. -/
theorem save_png_requires_pillow_witness :
    (save false false ⟨[], []⟩ (.raster [[true]]) "OUT.PNG").2
      = .error (.valueError saveMsg)
    ∧ (save false false ⟨[], []⟩ (.raster [[true]]) "OUT.PNG").1.files
      = (⟨[], []⟩ : FS).files :=
  save_png_requires_pillow ⟨[], []⟩ (.raster [[true]]) "OUT.PNG" (Or.inl (by decide))

end QrApp
